import Mathlib

/-!
Verification of the tycho-execution encoding subsystem.

The development embeds the two source files of the repository,
`src/encoding/evm/encoder_builder.rs` (the `EVMEncoderBuilder`) and
`src/bin/tycho-encode.rs` (the CLI entry point), as Lean functions, together
with models of the collaborators they use (`SwapEncoderRegistry`,
`SplitSwapStrategyEncoder`, `ExecutorStrategyEncoder`, `EVMTychoEncoder`,
`EncodingError`).  Those collaborators live in the same repository but their
source is not available here; each such definition carries a doc comment
starting `Modelled from the spec:` and follows the design document's words.

External effects (reading the executors configuration file, venue-specific
byte packing, cryptographic signing) are threaded through an explicit `Env`
record of pure functions, so every definition is executable and every run of
the pipeline is a plain function application.
-/

/-- Byte sequences are lists of naturals; each entry is one byte value. -/
abbrev Bytes := List Nat

/-- Chain identifier from the external `tycho_core::models::Chain` enum.
Only `Ethereum` is used by the CLI; the other variants stand for the
remaining chains the external crate enumerates. -/
inductive Chain where
  | Ethereum
  | Starknet
  | ZkSync
  | Arbitrum
deriving DecidableEq, Repr

/-- Numeric chain identifier, used for domain separation of the typed-data
approval message. -/
def Chain.id : Chain → Nat
  | .Ethereum => 1
  | .Starknet => 23448594291968334
  | .ZkSync => 324
  | .Arbitrum => 42161

/-- Modelled from the spec: the error taxonomy of §7 (`errors.rs` is not under
`src/`).  `FatalError` is the constructor the builder source visibly uses for
configuration errors; the other constructors carry the per-solution error
kinds (§7). -/
inductive EncodingError where
  | FatalError (msg : String)
  | InvalidSolution (msg : String)
  | UnsupportedProtocol (msg : String)
  | SigningError (msg : String)
deriving DecidableEq, Repr

/-- One on-chain liquidity venue instance (§3 `ProtocolComponent`). -/
structure ProtocolComponent where
  id : String
  protocol_system : String
  protocol_type_name : String
  chain : Chain
  tokens : List Bytes
  contract_ids : List Bytes
  static_attributes : List (String × Bytes)
deriving DecidableEq, Repr

/-- One hop of the trade (§3 `Swap`): the venue component, the token pair and
the split fraction in [0,1) of the remaining input routed through this swap
(0 means "all remaining input"). -/
structure Swap where
  component : ProtocolComponent
  token_in : Bytes
  token_out : Bytes
  split : ℚ
deriving DecidableEq, Repr

/-- One complete trade request (§3 `Solution`). -/
structure Solution where
  sender : Bytes
  receiver : Bytes
  given_token : Bytes
  given_amount : Nat
  checked_token : Bytes
  checked_amount : Option Nat
  expected_amount : Option Nat
  exact_out : Bool
  slippage : Option ℚ
  swaps : List Swap
  router_address : Option Bytes
deriving DecidableEq, Repr

/-- Output artifact (§3 `EncodedTransaction`): destination address,
native-currency value attached, and the call-data byte sequence. -/
structure EncodedTransaction where
  «to» : Bytes
  value : Nat
  data : Bytes
deriving DecidableEq, Repr

/-- Context passed to a venue encoder (§4.2 `EncodingContext`): the solution's
sender/receiver, the router address, and the position of the swap in the
execution graph. -/
structure EncodingContext where
  sender : Bytes
  receiver : Bytes
  routerAddress : Option Bytes
  index : Nat
deriving DecidableEq, Repr

/-- The ambient collaborators of the core, as pure functions: the result of
reading and parsing the executors configuration file at a path for a chain
(§4.1: missing or malformed file is a fatal configuration error), the
venue-specific byte packing of one swap (§4.2: a pure function of swap and
context; its layout is out of the design's scope), and the typed-data signing
primitive (§4.4 step 5: a function of key and message, failing on a malformed
key). -/
structure Env where
  readConfig : String → Chain → Except EncodingError (List (String × Bytes))
  venueEncode : Swap → EncodingContext → Except EncodingError Bytes
  sign : String → Bytes → Except EncodingError Bytes

/-- Modelled from the spec: the venue encoder registry (§4.1), a read-only
table resolving a `protocol_system` string to that venue's executor contract
address.  `swap_encoder_registry.rs` is not under `src/`. -/
structure SwapEncoderRegistry where
  encoders : List (String × Bytes)
deriving DecidableEq, Repr

/-- Modelled from the spec: the embedded default venue table used when no
configuration file path is supplied (§6).  Its exact contents are an embedded
constant of the repository, not fixed by the design; a representative entry is
used for the Ethereum chain. -/
def defaultTable : Chain → List (String × Bytes)
  | .Ethereum => [("uniswap_v2", [92, 47, 90, 113, 1, 2, 3, 4])]
  | _ => []

/-- Modelled from the spec: Registry construction (§4.1, §6): built from a
caller-supplied file path when one is given (a missing or malformed file is a
fatal configuration error raised here, at construction time), and from the
embedded default table when the path is absent. -/
def SwapEncoderRegistry.new (env : Env) (executors_file_path : Option String)
    (chain : Chain) : Except EncodingError SwapEncoderRegistry :=
  match executors_file_path with
  | none => .ok ⟨defaultTable chain⟩
  | some path =>
    match env.readConfig path chain with
    | .error e => .error e
    | .ok table => .ok ⟨table⟩

/-- Modelled from the spec: registry lookup (§4.1): O(1) by string key; an
unknown `protocol_system` yields an unsupported-protocol error naming the
venue. -/
def SwapEncoderRegistry.resolve (r : SwapEncoderRegistry) (ps : String) :
    Except EncodingError Bytes :=
  match r.encoders.lookup ps with
  | some executor => .ok executor
  | none => .error (.UnsupportedProtocol ps)

/-- Modelled from the spec: the strategy-encoder interface has exactly two
implementations (§2, §4.3, §4.4): the router-mediated split-swap strategy
(holding the chain, the registry and an optional signer key for the
signed-approval variant) and the direct-execution strategy (holding the
registry). -/
inductive StrategyEncoder where
  | splitSwap (chain : Chain) (registry : SwapEncoderRegistry) (swapperPk : Option String)
  | executor (registry : SwapEncoderRegistry)
deriving DecidableEq, Repr

/-- The optional raw private key held by a strategy encoder: the split-swap
strategy carries its optional signer key; the direct-execution strategy has
none. -/
def StrategyEncoder.swapperPk : StrategyEncoder → Option String
  | .splitSwap _ _ pk => pk
  | .executor _ => none

/-- Modelled from the spec: construction of the split-swap strategy encoder
(§4.4).  The design records no construction-time failure for this strategy —
key problems surface at signing time (§4.4 step 5) — but the constructor is
fallible in the source (the builder propagates its error with `?`), so it
returns `Except`. -/
def SplitSwapStrategyEncoder.new (chain : Chain) (registry : SwapEncoderRegistry)
    (swapper_pk : Option String) : Except EncodingError StrategyEncoder :=
  .ok (.splitSwap chain registry swapper_pk)

/-- Modelled from the spec: construction of the direct-execution strategy
encoder (§4.3); infallible in the builder source. -/
def ExecutorStrategyEncoder.new (registry : SwapEncoderRegistry) : StrategyEncoder :=
  .executor registry

/-- Modelled from the spec: the encoder façade (§4.5), holding the configured
chain and strategy encoder. -/
structure EVMTychoEncoder where
  chain : Chain
  strategy : StrategyEncoder
deriving DecidableEq, Repr

/-- Modelled from the spec: façade construction; the design records no
failure condition of its own, but the builder source propagates its `Result`
directly, so it returns `Except`. -/
def EVMTychoEncoder.new (chain : Chain) (strategy : StrategyEncoder) :
    Except EncodingError EVMTychoEncoder :=
  .ok ⟨chain, strategy⟩

/-- `EVMEncoderBuilder` (from `encoder_builder.rs`): optional strategy and
optional chain, both unset until configured. -/
structure EVMEncoderBuilder where
  strategy : Option StrategyEncoder
  chain : Option Chain
deriving Repr

/-- `EVMEncoderBuilder::new` (from `encoder_builder.rs`). -/
def EVMEncoderBuilder.new : EVMEncoderBuilder :=
  { chain := none, strategy := none }

/-- `Default::default` for `EVMEncoderBuilder` (from `encoder_builder.rs`):
delegates to `new`. -/
def EVMEncoderBuilder.default : EVMEncoderBuilder :=
  EVMEncoderBuilder.new

/-- `EVMEncoderBuilder::chain` (from `encoder_builder.rs`): sets the chain.
Named `setChain` here because the structure field accessor already carries the
source's name `chain`. -/
def EVMEncoderBuilder.setChain (b : EVMEncoderBuilder) (chain : Chain) :
    EVMEncoderBuilder :=
  { b with chain := some chain }

/-- `EVMEncoderBuilder::strategy_encoder` (from `encoder_builder.rs`): sets
the strategy encoder manually. -/
def EVMEncoderBuilder.strategy_encoder (b : EVMEncoderBuilder)
    (strategy : StrategyEncoder) : EVMEncoderBuilder :=
  { b with strategy := some strategy }

/-- `EVMEncoderBuilder::tycho_router` (from `encoder_builder.rs`): shortcut
constructing a `SplitSwapStrategyEncoder` with no approval (no signer key).
Each `match` on an `Except` embeds a `?` propagation of the source. -/
def EVMEncoderBuilder.tycho_router (b : EVMEncoderBuilder) (env : Env)
    (executors_file_path : Option String) : Except EncodingError EVMEncoderBuilder :=
  match b.chain with
  | some chain =>
    match SwapEncoderRegistry.new env executors_file_path chain with
    | .error e => .error e
    | .ok swap_encoder_registry =>
      match SplitSwapStrategyEncoder.new chain swap_encoder_registry none with
      | .error e => .error e
      | .ok strategy => .ok { chain := some chain, strategy := some strategy }
  | none =>
    .error (.FatalError "Please set the chain before setting the tycho router")

/-- `EVMEncoderBuilder::tycho_router_with_permit2` (from
`encoder_builder.rs`): shortcut constructing a `SplitSwapStrategyEncoder`
with Permit2 approval, holding `Some swapper_pk`. -/
def EVMEncoderBuilder.tycho_router_with_permit2 (b : EVMEncoderBuilder) (env : Env)
    (executors_file_path : Option String) (swapper_pk : String) :
    Except EncodingError EVMEncoderBuilder :=
  match b.chain with
  | some chain =>
    match SwapEncoderRegistry.new env executors_file_path chain with
    | .error e => .error e
    | .ok swap_encoder_registry =>
      match SplitSwapStrategyEncoder.new chain swap_encoder_registry (some swapper_pk) with
      | .error e => .error e
      | .ok strategy => .ok { chain := some chain, strategy := some strategy }
  | none =>
    .error (.FatalError "Please set the chain before setting the tycho router")

/-- `EVMEncoderBuilder::direct_execution` (from `encoder_builder.rs`):
shortcut constructing an `ExecutorStrategyEncoder`; takes no key argument. -/
def EVMEncoderBuilder.direct_execution (b : EVMEncoderBuilder) (env : Env)
    (executors_file_path : Option String) : Except EncodingError EVMEncoderBuilder :=
  match b.chain with
  | some chain =>
    match SwapEncoderRegistry.new env executors_file_path chain with
    | .error e => .error e
    | .ok swap_encoder_registry =>
      .ok { chain := some chain,
            strategy := some (ExecutorStrategyEncoder.new swap_encoder_registry) }
  | none =>
    .error (.FatalError "Please set the chain before setting the strategy")

/-- `EVMEncoderBuilder::build` (from `encoder_builder.rs`): constructs the
`EVMTychoEncoder` when both chain and strategy are set, and fails with a
fatal configuration error otherwise. -/
def EVMEncoderBuilder.build (b : EVMEncoderBuilder) :
    Except EncodingError EVMTychoEncoder :=
  match b.chain, b.strategy with
  | some chain, some strategy => EVMTychoEncoder.new chain strategy
  | _, _ =>
    .error (.FatalError "Please set the chain and strategy before building the encoder")

/-- Structural worker for the big-endian byte decomposition: the fuel bounds
the recursion depth and `natToBytesBE` always supplies enough of it. -/
def natToBytesBEAux : Nat → Nat → Bytes
  | 0, n => [n]
  | fuel + 1, n =>
    if n < 256 then [n] else natToBytesBEAux fuel (n / 256) ++ [n % 256]

/-- Big-endian byte decomposition of a natural number.  Matches
`BigUint::to_bytes_be` of the CLI source, which yields the single byte `0`
for zero. -/
def natToBytesBE (n : Nat) : Bytes :=
  natToBytesBEAux n n

/-- A value packed into a 32-byte big-endian word (the ABI word size). -/
def natToBytes32 (n : Nat) : Bytes :=
  List.replicate (32 - (natToBytesBE (n % 2 ^ 256)).length) 0 ++ natToBytesBE (n % 2 ^ 256)

/-- A byte string left-padded with zeros to a 32-byte ABI word. -/
def padTo32 (b : Bytes) : Bytes :=
  List.replicate (32 - b.length) 0 ++ b

/-- Lowercase hexadecimal digit for a value below 16. -/
def hexDigit (n : Nat) : Char :=
  if n < 10 then Char.ofNat (48 + n) else Char.ofNat (87 + n)

/-- Two lowercase hexadecimal digits for one byte, as `hex::encode` emits. -/
def hexByte (b : Nat) : String :=
  String.mk [hexDigit (b % 256 / 16), hexDigit (b % 16)]

/-- `hex::encode` over a byte sequence. -/
def hexEncode (bs : Bytes) : String :=
  String.join (bs.map hexByte)

/-- Index of the last swap whose `token_in` equals the given token, if any. -/
def tokenLastIndex (swaps : List Swap) (tok : Bytes) : Option Nat :=
  ((List.range swaps.length).filter
    (fun j => decide ((swaps.get? j).map Swap.token_in = some tok))).getLast?

/-- Modelled from the spec: split-distribution validation (§4.4 step 1): every
split lies in [0,1), and a swap's split is 0 exactly when it is the final swap
for its input token — the final one absorbs the remainder, a non-final swap
with split 0 (or any split outside [0,1)) is malformed. -/
def validSplits (swaps : List Swap) : Bool :=
  swaps.enum.all (fun p =>
    decide (0 ≤ p.2.split) && decide (p.2.split < 1) &&
      (decide (p.2.split = 0) == decide (tokenLastIndex swaps p.2.token_in = some p.1)))

/-- Modelled from the spec: the split fraction scaled to a fixed-point integer
for the per-swap header (§4.4 step 2); the scale constant is a repository
constant not fixed by the design. -/
def splitToFixed (q : ℚ) : Nat :=
  Int.toNat (Int.floor (q * 16777215))

/-- Modelled from the spec: minimum-output computation (§4.4): `checked_amount`
when given directly, else `expected_amount * (1 - slippage)` rounded down. -/
def minOutput (sol : Solution) : Except EncodingError Nat :=
  match sol.checked_amount with
  | some a => .ok a
  | none =>
    match sol.expected_amount, sol.slippage with
    | some e, some s => .ok (Int.toNat (Int.floor ((e : ℚ) * (1 - s))))
    | _, _ => .error (.InvalidSolution "no checked amount and no expected amount with slippage")

/-- Modelled from the spec: steps 2–3 of the split-swap algorithm (§4.4): for
each swap in order, resolve its venue encoder through the registry, obtain its
byte block, and prepend a fixed-width header carrying the scaled split, the
venue's executor address and the swap's index; headers and blocks are
concatenated into the router's swap-plan bytes. -/
def encodeSwapsPlan (env : Env) (registry : SwapEncoderRegistry) (sol : Solution) :
    List (Nat × Swap) → Except EncodingError Bytes
  | [] => .ok []
  | (i, sw) :: rest =>
    match registry.resolve sw.component.protocol_system with
    | .error e => .error e
    | .ok executor =>
      match env.venueEncode sw ⟨sol.sender, sol.receiver, sol.router_address, i⟩ with
      | .error e => .error e
      | .ok block =>
        match encodeSwapsPlan env registry sol rest with
        | .error e => .error e
        | .ok tail =>
          .ok (natToBytes32 (splitToFixed sw.split) ++ padTo32 executor ++
               [i % 256] ++ block ++ tail)

/-- Modelled from the spec: the router entry-point selector without Permit2
(§4.4 step 4); the concrete selector bytes are a repository constant not fixed
by the design. -/
def routerSelector : Bytes := [176, 1, 202, 94]

/-- Modelled from the spec: the router entry-point selector of the Permit2
variant (§4.4 step 5); a repository constant not fixed by the design. -/
def routerSelectorPermit2 : Bytes := [82, 199, 245, 221]

/-- Modelled from the spec: the executor entry-point selector of the
direct-execution strategy (§4.3); a repository constant not fixed by the
design. -/
def executorSelector : Bytes := [77, 145, 102, 33]

/-- Modelled from the spec: the fixed expiration of the signed approval (§4.4
step 5: "a fixed expiration"); a repository constant. -/
def permitDeadline : Nat := 1800

/-- Modelled from the spec: the permit nonce inserted alongside the deadline
into the top-level call (§4.4 step 5); a repository constant. -/
def permitNonce : Nat := 0

/-- Modelled from the spec: the typed-data (structured, domain-separated)
approval message (§4.4 step 5) authorizing the router to pull `given_amount`
of `given_token` from `sender`, with the fixed expiration; domain separation
uses the chain identifier. -/
def permitMessage (chain : Chain) (router : Bytes) (sol : Solution) : Bytes :=
  natToBytes32 (Chain.id chain) ++ padTo32 router ++ padTo32 sol.given_token ++
    natToBytes32 sol.given_amount ++ padTo32 sol.sender ++ natToBytes32 permitDeadline

/-- Modelled from the spec: the ABI-encoded fixed fields of the top-level
router call (§4.4 step 4): sender, receiver, given token and amount, checked
token, minimum output and the exact-out flag. -/
def fixedFields (sol : Solution) (minOut : Nat) : Bytes :=
  padTo32 sol.sender ++ padTo32 sol.receiver ++ padTo32 sol.given_token ++
    natToBytes32 sol.given_amount ++ padTo32 sol.checked_token ++
    natToBytes32 minOut ++ natToBytes32 (if sol.exact_out then 1 else 0)

/-- Modelled from the spec: the split-swap strategy encoder (§4.4): validate
the swap graph, build the swap plan, pack the top-level call, and — when a
signer key is present — sign the typed-data approval message and insert the
signature with the permit's nonce and deadline into the call.  The native
value attached is zero (the design leaves non-zero native value an open
question). -/
def splitSwapEncode (env : Env) (chain : Chain) (registry : SwapEncoderRegistry)
    (swapperPk : Option String) (sol : Solution) :
    Except EncodingError EncodedTransaction :=
  if sol.swaps.isEmpty then .error (.InvalidSolution "empty swap list")
  else if !validSplits sol.swaps then
    .error (.InvalidSolution "malformed split distribution")
  else
    match sol.router_address with
    | none => .error (.InvalidSolution "missing router address")
    | some router =>
      match minOutput sol with
      | .error e => .error e
      | .ok minOut =>
        match encodeSwapsPlan env registry sol sol.swaps.enum with
        | .error e => .error e
        | .ok plan =>
          match swapperPk with
          | none =>
            .ok ⟨router, 0, routerSelector ++ fixedFields sol minOut ++ plan⟩
          | some key =>
            match env.sign key (permitMessage chain router sol) with
            | .error e => .error e
            | .ok signature =>
              .ok ⟨router, 0,
                   routerSelectorPermit2 ++ fixedFields sol minOut ++ signature ++
                     natToBytes32 permitNonce ++ natToBytes32 permitDeadline ++ plan⟩

/-- Modelled from the spec: the direct-execution strategy encoder (§4.3):
applicable only to a solution with exactly one swap consuming the entire
input; the destination is the venue's executor contract resolved through the
registry and the data is that venue's block behind the executor selector. -/
def executorEncode (env : Env) (registry : SwapEncoderRegistry) (sol : Solution) :
    Except EncodingError EncodedTransaction :=
  match sol.swaps with
  | [sw] =>
    if sw.split = 0 then
      match registry.resolve sw.component.protocol_system with
      | .error e => .error e
      | .ok executor =>
        match env.venueEncode sw ⟨sol.sender, sol.receiver, sol.router_address, 0⟩ with
        | .error e => .error e
        | .ok block => .ok ⟨executor, 0, executorSelector ++ block⟩
    else .error (.InvalidSolution "single swap must consume the entire input")
  | _ => .error (.InvalidSolution "direct execution requires exactly one swap")

/-- Dispatch of the strategy-encoder interface (§4.2 contract): one solution
in, a target address, native value and call data out. -/
def StrategyEncoder.encode (st : StrategyEncoder) (env : Env) (sol : Solution) :
    Except EncodingError EncodedTransaction :=
  match st with
  | .splitSwap chain registry pk => splitSwapEncode env chain registry pk sol
  | .executor registry => executorEncode env registry sol

/-- Modelled from the spec: the façade loop (§4.5): order-preserving, one
output per input, the first error aborts and no partial result is returned. -/
def encodeSolutions (env : Env) (st : StrategyEncoder) :
    List Solution → Except EncodingError (List EncodedTransaction)
  | [] => .ok []
  | s :: rest =>
    match st.encode env s with
    | .error e => .error e
    | .ok t =>
      match encodeSolutions env st rest with
      | .error e => .error e
      | .ok ts => .ok (t :: ts)

/-- Modelled from the spec: `EVMTychoEncoder::encode_router_calldata` (§4.5):
delegates each solution to the configured strategy encoder. -/
def EVMTychoEncoder.encode_router_calldata (enc : EVMTychoEncoder) (env : Env)
    (solutions : List Solution) : Except EncodingError (List EncodedTransaction) :=
  encodeSolutions env enc.strategy solutions

/-- The CLI subcommands (from `tycho-encode.rs`): the three strategy
shortcuts, each carrying the optional config path and, for the Permit2
variant, the swapper's private key. -/
inductive Commands where
  | TychoRouter (config_path : Option String)
  | TychoRouterPermit2 (config_path : Option String) (swapper_pk : String)
  | DirectExecution (config_path : Option String)
deriving DecidableEq, Repr

/-- The optional executors config path carried by a subcommand. -/
def Commands.configPath : Commands → Option String
  | .TychoRouter cp => cp
  | .TychoRouterPermit2 cp _ => cp
  | .DirectExecution cp => cp

/-- The CLI's dispatch of a subcommand to the matching builder shortcut (from
`tycho-encode.rs`, `main`). -/
def applyShortcut (env : Env) (b : EVMEncoderBuilder) :
    Commands → Except EncodingError EVMEncoderBuilder
  | .TychoRouter config_path => b.tycho_router env config_path
  | .TychoRouterPermit2 config_path swapper_pk =>
    b.tycho_router_with_permit2 env config_path swapper_pk
  | .DirectExecution config_path => b.direct_execution env config_path

/-- JSON values, as far as the CLI's output needs them: strings and objects
with ordered fields. -/
inductive Json where
  | str (s : String)
  | obj (fields : List (String × Json))
deriving Repr

/-- The CLI pipeline after input parsing (from `tycho-encode.rs`, `main`): the
chain is fixed to Ethereum, the builder is configured through the chosen
subcommand, built, the single parsed solution is encoded, and the `to`,
`value` and `data` fields of the first transaction are emitted as 0x-prefixed
hex strings in one JSON object (`value` through `BigUint::to_bytes_be`). -/
def runCli (env : Env) (cmd : Commands) (solution : Solution) :
    Except EncodingError Json :=
  match applyShortcut env (EVMEncoderBuilder.new.setChain Chain.Ethereum) cmd with
  | .error e => .error e
  | .ok builder =>
    match builder.build with
    | .error e => .error e
    | .ok encoder =>
      match encoder.encode_router_calldata env [solution] with
      | .error e => .error e
      | .ok transactions =>
        match transactions with
        | [] => .error (.FatalError "no transaction encoded")
        | t :: _ =>
          .ok (Json.obj
            [("to", Json.str ("0x" ++ hexEncode t.«to»)),
             ("value", Json.str ("0x" ++ hexEncode (natToBytesBE t.value))),
             ("data", Json.str ("0x" ++ hexEncode t.data))])

/-- A concrete environment for witness runs: the config file at
`executors.json` parses to a one-entry table, every other path is missing;
venue packing and signing are fixed pure functions. -/
def testEnv : Env :=
  { readConfig := fun path _ =>
      if path = "executors.json" then .ok [("uniswap_v2", [1, 2, 3, 4])]
      else .error (.FatalError ("Failed to read executors file at " ++ path)),
    venueEncode := fun sw ctx => .ok (sw.token_in ++ sw.token_out ++ [ctx.index]),
    sign := fun key msg =>
      if key = "" then .error (.SigningError "malformed private key")
      else .ok (natToBytes32 27 ++ natToBytes32 msg.length ++ natToBytes32 key.length) }

/-- A concrete venue component on the default table's registered venue. -/
def testComponent : ProtocolComponent :=
  { id := "pool1", protocol_system := "uniswap_v2",
    protocol_type_name := "uniswap_v2_pool", chain := .Ethereum,
    tokens := [[17], [34]], contract_ids := [[80]], static_attributes := [] }

/-- A concrete single full-consuming swap. -/
def testSwap : Swap :=
  { component := testComponent, token_in := [17], token_out := [34], split := 0 }

/-- A concrete valid solution with one swap. -/
def testSolution : Solution :=
  { sender := [10], receiver := [11], given_token := [17], given_amount := 1000,
    checked_token := [34], checked_amount := some 990, expected_amount := some 1000,
    exact_out := false, slippage := some (1 / 100), swaps := [testSwap],
    router_address := some [99] }

/-- A concrete façade configured with the direct-execution strategy over the
default table. -/
def testEncoder : EVMTychoEncoder :=
  { chain := .Ethereum, strategy := .executor ⟨defaultTable .Ethereum⟩ }

/-- Claim C1: for every builder state in which the chain or the strategy (or
both) has not been set, `build()` returns the fatal configuration error and no
encoder is constructed. -/
theorem build_missing_config_fatal (b : EVMEncoderBuilder)
    (h : b.chain = none ∨ b.strategy = none) :
    b.build = .error (.FatalError
      "Please set the chain and strategy before building the encoder") := by
  cases hc : b.chain <;> cases hs : b.strategy <;>
    simp_all [EVMEncoderBuilder.build]

/-- Witness for C1 at the freshly constructed builder. -/
theorem build_missing_config_fatal_witness :
    EVMEncoderBuilder.new.build = .error (.FatalError
      "Please set the chain and strategy before building the encoder") :=
  build_missing_config_fatal EVMEncoderBuilder.new (Or.inl rfl)

/-- Claim C9: `new()` and `default()` produce the identical initial state with
neither chain nor strategy set, and `build()` on a freshly constructed builder
returns a fatal error. -/
theorem new_default_unset_build_fails :
    EVMEncoderBuilder.default = EVMEncoderBuilder.new ∧
    EVMEncoderBuilder.new.chain = none ∧
    EVMEncoderBuilder.new.strategy = none ∧
    EVMEncoderBuilder.new.build = .error (.FatalError
      "Please set the chain and strategy before building the encoder") ∧
    EVMEncoderBuilder.default.build = .error (.FatalError
      "Please set the chain and strategy before building the encoder") :=
  ⟨rfl, rfl, rfl, rfl, rfl⟩

/-- Claim C10: for every prior builder state, setting the chain updates only
the chain field and setting the strategy encoder updates only the strategy
field. -/
theorem chain_strategy_setters_frame (b : EVMEncoderBuilder) (c : Chain)
    (s : StrategyEncoder) :
    (b.setChain c).chain = some c ∧ (b.setChain c).strategy = b.strategy ∧
    (b.strategy_encoder s).strategy = some s ∧
    (b.strategy_encoder s).chain = b.chain :=
  ⟨rfl, rfl, rfl, rfl⟩

/-- Claim C8: on a builder whose chain is not set, each of the three shortcut
methods fails immediately with `FatalError`, and the result does not depend on
the environment (registry and strategy construction are never attempted). -/
theorem shortcut_missing_chain_fatal (env env' : Env) (b : EVMEncoderBuilder)
    (path : Option String) (pk : String) (h : b.chain = none) :
    b.tycho_router env path = .error (.FatalError
      "Please set the chain before setting the tycho router") ∧
    b.tycho_router_with_permit2 env path pk = .error (.FatalError
      "Please set the chain before setting the tycho router") ∧
    b.direct_execution env path = .error (.FatalError
      "Please set the chain before setting the strategy") ∧
    b.tycho_router env path = b.tycho_router env' path ∧
    b.tycho_router_with_permit2 env path pk =
      b.tycho_router_with_permit2 env' path pk ∧
    b.direct_execution env path = b.direct_execution env' path := by
  refine ⟨?_, ?_, ?_, ?_, ?_, ?_⟩ <;>
    simp [EVMEncoderBuilder.tycho_router,
      EVMEncoderBuilder.tycho_router_with_permit2,
      EVMEncoderBuilder.direct_execution, h]

/-- Witness for C8 at the freshly constructed builder and the test
environment. -/
theorem shortcut_missing_chain_fatal_witness :
    EVMEncoderBuilder.new.tycho_router testEnv none = .error (.FatalError
      "Please set the chain before setting the tycho router") ∧
    EVMEncoderBuilder.new.tycho_router_with_permit2 testEnv none "pk" =
      .error (.FatalError
        "Please set the chain before setting the tycho router") ∧
    EVMEncoderBuilder.new.direct_execution testEnv none = .error (.FatalError
      "Please set the chain before setting the strategy") ∧
    EVMEncoderBuilder.new.tycho_router testEnv none =
      EVMEncoderBuilder.new.tycho_router testEnv none ∧
    EVMEncoderBuilder.new.tycho_router_with_permit2 testEnv none "pk" =
      EVMEncoderBuilder.new.tycho_router_with_permit2 testEnv none "pk" ∧
    EVMEncoderBuilder.new.direct_execution testEnv none =
      EVMEncoderBuilder.new.direct_execution testEnv none :=
  shortcut_missing_chain_fatal testEnv testEnv EVMEncoderBuilder.new none "pk" rfl

/-- Claim C2: besides direct setting via `strategy_encoder`, the builder
offers the three shortcut configurations enumerated by `Commands`; on a
builder whose chain is set, any successful shortcut call returns a builder
whose strategy is set and whose chain is unchanged, so the subsequent
`build()` reaches encoder construction instead of the missing-configuration
error. -/
theorem shortcuts_set_strategy_keep_chain (env : Env) (b : EVMEncoderBuilder)
    (c : Chain) (cmd : Commands) (b' : EVMEncoderBuilder)
    (hc : b.chain = some c) (hok : applyShortcut env b cmd = .ok b') :
    b'.chain = some c ∧
      ∃ s, b'.strategy = some s ∧ b'.build = EVMTychoEncoder.new c s := by
  cases cmd with
  | TychoRouter cp =>
    simp only [applyShortcut, EVMEncoderBuilder.tycho_router, hc,
      SplitSwapStrategyEncoder.new] at hok
    cases hreg : SwapEncoderRegistry.new env cp c with
    | error e => rw [hreg] at hok; cases hok
    | ok reg =>
      rw [hreg] at hok
      injection hok with hb'
      subst hb'
      exact ⟨rfl, StrategyEncoder.splitSwap c reg none, rfl, rfl⟩
  | TychoRouterPermit2 cp pk =>
    simp only [applyShortcut, EVMEncoderBuilder.tycho_router_with_permit2, hc,
      SplitSwapStrategyEncoder.new] at hok
    cases hreg : SwapEncoderRegistry.new env cp c with
    | error e => rw [hreg] at hok; cases hok
    | ok reg =>
      rw [hreg] at hok
      injection hok with hb'
      subst hb'
      exact ⟨rfl, StrategyEncoder.splitSwap c reg (some pk), rfl, rfl⟩
  | DirectExecution cp =>
    simp only [applyShortcut, EVMEncoderBuilder.direct_execution, hc,
      ExecutorStrategyEncoder.new] at hok
    cases hreg : SwapEncoderRegistry.new env cp c with
    | error e => rw [hreg] at hok; cases hok
    | ok reg =>
      rw [hreg] at hok
      injection hok with hb'
      subst hb'
      exact ⟨rfl, StrategyEncoder.executor reg, rfl, rfl⟩

/-- Witness for C2: the plain-router shortcut on a chain-set builder with the
default table. -/
theorem shortcuts_set_strategy_keep_chain_witness :
    (EVMEncoderBuilder.mk
        (some (.splitSwap .Ethereum ⟨defaultTable .Ethereum⟩ none))
        (some .Ethereum)).chain = some Chain.Ethereum ∧
    ∃ s, (EVMEncoderBuilder.mk
        (some (.splitSwap .Ethereum ⟨defaultTable .Ethereum⟩ none))
        (some .Ethereum)).strategy = some s ∧
      (EVMEncoderBuilder.mk
        (some (.splitSwap .Ethereum ⟨defaultTable .Ethereum⟩ none))
        (some .Ethereum)).build = EVMTychoEncoder.new .Ethereum s :=
  shortcuts_set_strategy_keep_chain testEnv
    (EVMEncoderBuilder.new.setChain .Ethereum) .Ethereum
    (Commands.TychoRouter none) _ rfl rfl

/-- Claim C3: on a builder whose chain is set, a configuration failure of
`SwapEncoderRegistry::new` is returned immediately from any of the three
shortcut calls. -/
theorem registry_error_surfaces_at_shortcut (env : Env) (b : EVMEncoderBuilder)
    (c : Chain) (cmd : Commands) (e : EncodingError)
    (hc : b.chain = some c)
    (hreg : SwapEncoderRegistry.new env cmd.configPath c = .error e) :
    applyShortcut env b cmd = .error e := by
  cases cmd <;>
    simp_all [applyShortcut, Commands.configPath,
      EVMEncoderBuilder.tycho_router,
      EVMEncoderBuilder.tycho_router_with_permit2,
      EVMEncoderBuilder.direct_execution]

/-- Witness for C3: a missing config file fails the plain-router shortcut with
the registry's own error. -/
theorem registry_error_surfaces_at_shortcut_witness :
    applyShortcut testEnv (EVMEncoderBuilder.new.setChain .Ethereum)
        (Commands.TychoRouter (some "missing.json")) =
      .error (.FatalError "Failed to read executors file at missing.json") :=
  registry_error_surfaces_at_shortcut testEnv
    (EVMEncoderBuilder.new.setChain .Ethereum) .Ethereum
    (Commands.TychoRouter (some "missing.json")) _ rfl rfl

/-- Claim C4: a raw private key is required by, and only by, the
signed-approval variant: a successful `tycho_router_with_permit2` yields a
split-swap strategy holding `some swapper_pk`, a successful `tycho_router`
yields the same strategy holding `none`, and a successful `direct_execution`
(which takes no key argument) yields the executor strategy, which holds no
key. -/
theorem swapper_pk_only_in_permit2 (env : Env) (b : EVMEncoderBuilder)
    (c : Chain) (path : Option String) (pk : String)
    (b₁ b₂ b₃ : EVMEncoderBuilder) (hc : b.chain = some c)
    (h1 : b.tycho_router_with_permit2 env path pk = .ok b₁)
    (h2 : b.tycho_router env path = .ok b₂)
    (h3 : b.direct_execution env path = .ok b₃) :
    (∃ reg, b₁.strategy = some (.splitSwap c reg (some pk))) ∧
    (∃ reg, b₂.strategy = some (.splitSwap c reg none)) ∧
    (∃ reg, b₃.strategy = some (.executor reg) ∧
      StrategyEncoder.swapperPk (.executor reg) = none) := by
  simp only [EVMEncoderBuilder.tycho_router_with_permit2,
    EVMEncoderBuilder.tycho_router, EVMEncoderBuilder.direct_execution, hc,
    SplitSwapStrategyEncoder.new, ExecutorStrategyEncoder.new] at h1 h2 h3
  cases hreg : SwapEncoderRegistry.new env path c with
  | error e => rw [hreg] at h1; cases h1
  | ok reg =>
    rw [hreg] at h1 h2 h3
    injection h1 with hb₁
    injection h2 with hb₂
    injection h3 with hb₃
    subst hb₁; subst hb₂; subst hb₃
    exact ⟨⟨reg, rfl⟩, ⟨reg, rfl⟩, ⟨reg, rfl, rfl⟩⟩

/-- Witness for C4: the three shortcuts on a chain-set builder with the
default table. -/
theorem swapper_pk_only_in_permit2_witness :
    (∃ reg, (EVMEncoderBuilder.mk
        (some (.splitSwap .Ethereum ⟨defaultTable .Ethereum⟩ (some "pk")))
        (some .Ethereum)).strategy =
      some (.splitSwap Chain.Ethereum reg (some "pk"))) ∧
    (∃ reg, (EVMEncoderBuilder.mk
        (some (.splitSwap .Ethereum ⟨defaultTable .Ethereum⟩ none))
        (some .Ethereum)).strategy = some (.splitSwap Chain.Ethereum reg none)) ∧
    (∃ reg, (EVMEncoderBuilder.mk
        (some (.executor ⟨defaultTable .Ethereum⟩))
        (some .Ethereum)).strategy = some (.executor reg) ∧
      StrategyEncoder.swapperPk (.executor reg) = none) :=
  swapper_pk_only_in_permit2 testEnv (EVMEncoderBuilder.new.setChain .Ethereum)
    .Ethereum none "pk" _ _ _ rfl rfl rfl rfl

/-- Claim C5: every strategy shortcut takes the registry configuration source
as an optional file path, and with the path absent the registry is built from
the embedded default table instead of failing: all three shortcuts succeed on
a chain-set builder, holding the default-table registry. -/
theorem none_path_uses_default_table (env : Env) (b : EVMEncoderBuilder)
    (c : Chain) (pk : String) (hc : b.chain = some c) :
    SwapEncoderRegistry.new env none c = .ok ⟨defaultTable c⟩ ∧
    b.tycho_router env none =
      .ok (EVMEncoderBuilder.mk
        (some (.splitSwap c ⟨defaultTable c⟩ none)) (some c)) ∧
    b.tycho_router_with_permit2 env none pk =
      .ok (EVMEncoderBuilder.mk
        (some (.splitSwap c ⟨defaultTable c⟩ (some pk))) (some c)) ∧
    b.direct_execution env none =
      .ok (EVMEncoderBuilder.mk
        (some (.executor ⟨defaultTable c⟩)) (some c)) := by
  refine ⟨rfl, ?_, ?_, ?_⟩ <;>
    simp [EVMEncoderBuilder.tycho_router,
      EVMEncoderBuilder.tycho_router_with_permit2,
      EVMEncoderBuilder.direct_execution, hc, SwapEncoderRegistry.new,
      SplitSwapStrategyEncoder.new, ExecutorStrategyEncoder.new]

/-- Witness for C5 at a chain-set builder and the test environment. -/
theorem none_path_uses_default_table_witness :
    SwapEncoderRegistry.new testEnv none .Ethereum =
      .ok ⟨defaultTable .Ethereum⟩ ∧
    (EVMEncoderBuilder.new.setChain .Ethereum).tycho_router testEnv none =
      .ok (EVMEncoderBuilder.mk
        (some (.splitSwap .Ethereum ⟨defaultTable .Ethereum⟩ none))
        (some .Ethereum)) ∧
    (EVMEncoderBuilder.new.setChain .Ethereum).tycho_router_with_permit2
        testEnv none "pk" =
      .ok (EVMEncoderBuilder.mk
        (some (.splitSwap .Ethereum ⟨defaultTable .Ethereum⟩ (some "pk")))
        (some .Ethereum)) ∧
    (EVMEncoderBuilder.new.setChain .Ethereum).direct_execution testEnv none =
      .ok (EVMEncoderBuilder.mk
        (some (.executor ⟨defaultTable .Ethereum⟩)) (some .Ethereum)) :=
  none_path_uses_default_table testEnv (EVMEncoderBuilder.new.setChain .Ethereum)
    .Ethereum "pk" rfl

/-- Claim C6: the entire encoding pipeline — the strategy dispatch of the
façade as well as the full CLI run over the builder-configured strategy — is
a function of its input alone: identical inputs give byte-identical results,
so a failure recurs identically on retry. -/
theorem encoding_deterministic (env : Env) (enc : EVMTychoEncoder)
    (cmd : Commands) (s₁ s₂ : Solution) (h : s₁ = s₂) :
    enc.encode_router_calldata env [s₁] = enc.encode_router_calldata env [s₂] ∧
    runCli env cmd s₁ = runCli env cmd s₂ := by
  subst h
  exact ⟨rfl, rfl⟩

/-- Witness for C6 at the concrete test run. -/
theorem encoding_deterministic_witness :
    testEncoder.encode_router_calldata testEnv [testSolution] =
      testEncoder.encode_router_calldata testEnv [testSolution] ∧
    runCli testEnv (Commands.DirectExecution none) testSolution =
      runCli testEnv (Commands.DirectExecution none) testSolution :=
  encoding_deterministic testEnv testEncoder (Commands.DirectExecution none)
    testSolution testSolution rfl

/-- Encoding a one-solution list through the façade yields exactly one
transaction, the strategy's encoding of that solution. -/
theorem encodeSolutions_single_ok (env : Env) (st : StrategyEncoder)
    (s : Solution) (l : List EncodedTransaction)
    (h : encodeSolutions env st [s] = .ok l) :
    ∃ t, st.encode env s = .ok t ∧ l = [t] := by
  simp only [encodeSolutions] at h
  cases hs : st.encode env s with
  | error e => rw [hs] at h; cases h
  | ok t =>
    rw [hs] at h
    injection h with h'
    exact ⟨t, rfl, h'.symm⟩

/-- Claim C7: whenever the CLI pipeline succeeds, the configured encoder
produced exactly one transaction for the single input solution, and the JSON
object written to stdout consists of exactly the fields `to`, `value` and
`data` of that transaction, as 0x-prefixed hex strings. -/
theorem cli_output_three_fields (env : Env) (cmd : Commands) (sol : Solution)
    (j : Json) (h : runCli env cmd sol = .ok j) :
    ∃ b enc t,
      applyShortcut env (EVMEncoderBuilder.new.setChain Chain.Ethereum) cmd =
        .ok b ∧
      b.build = .ok enc ∧
      enc.encode_router_calldata env [sol] = .ok [t] ∧
      j = Json.obj
        [("to", Json.str ("0x" ++ hexEncode t.«to»)),
         ("value", Json.str ("0x" ++ hexEncode (natToBytesBE t.value))),
         ("data", Json.str ("0x" ++ hexEncode t.data))] := by
  unfold runCli at h
  cases hb : applyShortcut env (EVMEncoderBuilder.new.setChain Chain.Ethereum) cmd with
  | error e => simp only [hb] at h; exact Except.noConfusion h
  | ok builder =>
    simp only [hb] at h
    cases he : builder.build with
    | error e => simp only [he] at h; exact Except.noConfusion h
    | ok encoder =>
      simp only [he] at h
      cases ht : encoder.encode_router_calldata env [sol] with
      | error e => simp only [ht] at h; exact Except.noConfusion h
      | ok ts =>
        obtain ⟨t, henc, rfl⟩ :=
          encodeSolutions_single_ok env encoder.strategy sol ts ht
        simp only [ht] at h
        injection h with hj
        exact ⟨builder, encoder, t, rfl, he, ht, hj.symm⟩

/-- Witness for C7: the concrete direct-execution CLI run and its JSON
output. -/
theorem cli_output_three_fields_witness :
    ∃ b enc t,
      applyShortcut testEnv (EVMEncoderBuilder.new.setChain Chain.Ethereum)
          (Commands.DirectExecution none) = .ok b ∧
      b.build = .ok enc ∧
      enc.encode_router_calldata testEnv [testSolution] = .ok [t] ∧
      Json.obj
        [("to", Json.str "0x5c2f5a7101020304"),
         ("value", Json.str "0x00"),
         ("data", Json.str "0x4d916621112200")] = Json.obj
        [("to", Json.str ("0x" ++ hexEncode t.«to»)),
         ("value", Json.str ("0x" ++ hexEncode (natToBytesBE t.value))),
         ("data", Json.str ("0x" ++ hexEncode t.data))] :=
  cli_output_three_fields testEnv (Commands.DirectExecution none) testSolution
    (Json.obj
      [("to", Json.str "0x5c2f5a7101020304"),
       ("value", Json.str "0x00"),
       ("data", Json.str "0x4d916621112200")]) rfl
